import Mathlib

/-!
Shallow embedding of the miniGTA3 real-time entity simulation layer
(src/Vehicle.ts, src/VehicleManager.ts, src/PedestrianManager.ts,
src/Pedestrian.ts, src/Player.ts, src/Environment.ts) together with
theorems settling the specification claims about it.

Numbers: the TypeScript sources compute with IEEE doubles; we model them
as exact rationals (ℚ).  Transcendental operations (Math.sin, Math.cos,
Math.PI, Math.atan2) only ever enter the state through the rotation
fields; they are modelled by an explicit `Trig` record of rational
stand-ins, and every theorem quantifies over that record.  Euclidean
norms (`.normalize()`, `.distanceTo()`) are irrational in general; where
a comparison `distanceTo p < r` occurs we use the equivalent squared
form `dist2 < r^2`, and where a normalized vector itself flows into the
state we pass the norm as an explicit argument `n` constrained by the
hypothesis `n * n = dot v v ∧ 0 < n`.
-/

/-- Rational stand-ins for the transcendental functions used by the
sources (Math.sin, Math.cos, Math.PI).  All theorems hold for every
choice of this record. -/
structure Trig where
  sin : ℚ → ℚ
  cos : ℚ → ℚ
  pi : ℚ
  atan2 : ℚ → ℚ → ℚ

/-- THREE.Vector3 with rational components. -/
structure Vec3 where
  x : ℚ
  y : ℚ
  z : ℚ
deriving DecidableEq, Repr

namespace Vec3

/-- Componentwise vector addition (THREE.Vector3.add). -/
def add (a b : Vec3) : Vec3 := ⟨a.x + b.x, a.y + b.y, a.z + b.z⟩

/-- Componentwise vector subtraction (THREE.Vector3.subVectors). -/
def sub (a b : Vec3) : Vec3 := ⟨a.x - b.x, a.y - b.y, a.z - b.z⟩

/-- Scalar multiplication (THREE.Vector3.multiplyScalar). -/
def smul (k : ℚ) (a : Vec3) : Vec3 := ⟨k * a.x, k * a.y, k * a.z⟩

/-- Dot product (THREE.Vector3.dot). -/
def dot (a b : Vec3) : ℚ := a.x * b.x + a.y * b.y + a.z * b.z

/-- Squared Euclidean distance.  The sources compare
`a.distanceTo(b) < r`; we use the equivalent `dist2 a b < r^2`. -/
def dist2 (a b : Vec3) : ℚ := dot (sub a b) (sub a b)

end Vec3

/-- The vector `new THREE.Vector3(0, 0, -1).applyEuler(rotation)` for a
yaw-only Euler rotation: the entity's forward direction. -/
def vecForward (T : Trig) (yaw : ℚ) : Vec3 := ⟨-(T.sin yaw), 0, -(T.cos yaw)⟩

/-- The vector `new THREE.Vector3(1, 0, 0).applyEuler(rotation)` for a
yaw-only Euler rotation: the entity's right direction. -/
def vecRight (T : Trig) (yaw : ℚ) : Vec3 := ⟨T.cos yaw, 0, -(T.sin yaw)⟩

/-- THREE.Box3: an axis-aligned box given by min and max corners. -/
structure Box3 where
  lo : Vec3
  hi : Vec3
deriving DecidableEq, Repr

namespace Box3

/-- THREE.Box3.intersectsBox: componentwise interval overlap. -/
def intersectsBox (a b : Box3) : Prop :=
  a.lo.x ≤ b.hi.x ∧ b.lo.x ≤ a.hi.x ∧
  a.lo.y ≤ b.hi.y ∧ b.lo.y ≤ a.hi.y ∧
  a.lo.z ≤ b.hi.z ∧ b.lo.z ≤ a.hi.z

instance (a b : Box3) : Decidable (intersectsBox a b) := by
  unfold intersectsBox; infer_instance

/-- THREE.Box3.getCenter: the box center. -/
def getCenter (b : Box3) : Vec3 :=
  ⟨(b.lo.x + b.hi.x) / 2, (b.lo.y + b.hi.y) / 2, (b.lo.z + b.hi.z) / 2⟩

end Box3

/-- `Math.sign`. -/
def qsign (q : ℚ) : ℚ := if q > 0 then 1 else if q < 0 then -1 else 0

/-- Environment.getGroundHeight: the terrain is flat, the ground height
is the constant 0 (src/Environment.ts, `groundHeight = 0`). -/
def getGroundHeight (_x _z : ℚ) : ℚ := 0

namespace Vehicle

/-- Constants of src/Vehicle.ts (lines 18-39). -/
def maxSteeringFrac : ℚ := 1 / 4        -- maxSteeringAngle = Math.PI / 4

def acceleration : ℚ := 25

def deceleration : ℚ := 15

def maxSpeed : ℚ := 30

def steeringSpeed : ℚ := 3

def steeringReturn : ℚ := 8

def mass : ℚ := 1000

def enginePower : ℚ := 500

def brakingForce : ℚ := 1200

def dragCoefficient : ℚ := 3 / 10

def rollingResistance : ℚ := 3 / 100

def corneringStiffness : ℚ := 7

def suspensionStiffness : ℚ := 12

def suspensionDamping : ℚ := 9 / 10

def suspensionTravel : ℚ := 1 / 4

def width : ℚ := 2

def height : ℚ := 3 / 2

def length : ℚ := 4

/-- The axis-aligned box of a vehicle mesh centred at `p`
(Box3.setFromObject on the vehicle's box geometry): position plus the
fixed half-extents width/2, height/2, length/2. -/
def vehBox (p : Vec3) : Box3 :=
  ⟨⟨p.x - width / 2, p.y - height / 2, p.z - length / 2⟩,
   ⟨p.x + width / 2, p.y + height / 2, p.z + length / 2⟩⟩

/-- The mutable state of a Vehicle instance (the fields of
src/Vehicle.ts that the simulation reads and writes).  `collider` is
the persisted THREE.Box3 field, refreshed from the mesh at the end of
each full update.  The dead field `aiTargetPosition` (read only by a
truthiness guard that never fails) is omitted. -/
structure State where
  pos : Vec3
  vel : Vec3
  yaw : ℚ                 -- rotation.y (the only rotated axis)
  steeringAngle : ℚ
  currentSpeed : ℚ
  hasCollidedRecently : Bool
  collisionCooldown : ℚ
  isOccupied : Bool
  isAIControlled : Bool
  aiTargetRotation : ℚ
  aiTargetSpeed : ℚ
  collider : Box3
deriving DecidableEq, Repr

/-- The Vehicle constructor (src/Vehicle.ts lines 79-116): position
snapped to the ground plus half the height, everything else at rest. -/
def mkVehicle (initialPosition : Vec3) (initialRotation : ℚ) : State :=
  let p : Vec3 := ⟨initialPosition.x,
                   getGroundHeight initialPosition.x initialPosition.z + height / 2,
                   initialPosition.z⟩
  { pos := p, vel := ⟨0, 0, 0⟩, yaw := initialRotation, steeringAngle := 0,
    currentSpeed := 0, hasCollidedRecently := false, collisionCooldown := 0,
    isOccupied := false, isAIControlled := false,
    aiTargetRotation := 0, aiTargetSpeed := 0, collider := vehBox p }

/-- The keys the driving code polls (InputManager.isKeyPressed). -/
structure DriveInput where
  keyW : Bool
  keyS : Bool
  keyA : Bool
  keyD : Bool
deriving DecidableEq, Repr

/-- Vehicle.handleDriving (src/Vehicle.ts lines 214-284): player-driven
update of currentSpeed, steeringAngle, rotation.y, velocity, position. -/
def handleDriving (T : Trig) (st : State) (dt : ℚ) (inp : DriveInput) : State :=
  -- acceleration / braking
  let s1 : ℚ :=
    if inp.keyW then
      min (st.currentSpeed + acceleration * (1 - st.currentSpeed / maxSpeed) * dt) maxSpeed
    else if inp.keyS then
      if st.currentSpeed > 0 then
        max 0 (st.currentSpeed - brakingForce * dt)
      else
        max (-maxSpeed * (1/2)) (st.currentSpeed - acceleration * dt)
    else
      if |st.currentSpeed| > 0 then
        if st.currentSpeed > 0 then max 0 (st.currentSpeed - deceleration * dt)
        else min 0 (st.currentSpeed + deceleration * dt)
      else st.currentSpeed
  -- steering (reads the already-updated currentSpeed)
  let steer1 : ℚ :=
    if inp.keyA then
      min (st.steeringAngle + steeringSpeed * dt)
          (T.pi * maxSteeringFrac * min 1 (|s1| / (maxSpeed * (1/2))))
    else if inp.keyD then
      max (st.steeringAngle - steeringSpeed * dt)
          (-(T.pi * maxSteeringFrac) * min 1 (|s1| / (maxSpeed * (1/2))))
    else
      if st.steeringAngle > 0 then max 0 (st.steeringAngle - steeringReturn * dt)
      else if st.steeringAngle < 0 then min 0 (st.steeringAngle + steeringReturn * dt)
      else st.steeringAngle
  -- apply steering to rotation based on speed
  let yaw1 : ℚ :=
    if |s1| > 1/10 then st.yaw + steer1 * (s1 / maxSpeed) * dt * 2 else st.yaw
  -- velocity from rotation and speed (y component is left as it was)
  let dir := vecForward T yaw1
  let vel1 : Vec3 := ⟨dir.x * s1, st.vel.y, dir.z * s1⟩
  -- position.add(velocity.multiplyScalar(dt)) mutates velocity as well
  let vel2 := Vec3.smul dt vel1
  let pos1 := Vec3.add st.pos vel2
  -- keep vehicle on the ground
  let pos2 : Vec3 := ⟨pos1.x, getGroundHeight pos1.x pos1.z + height / 2, pos1.z⟩
  { st with currentSpeed := s1, steeringAngle := steer1, yaw := yaw1,
            vel := vel2, pos := pos2 }

/-- Vehicle.applyAIPhysics (src/Vehicle.ts lines 378-426): ease yaw
toward the AI target rotation, ease and clamp currentSpeed toward the
AI target speed, translate forward, simplified suspension.
(The guard `if (this.aiTargetPosition)` is always true: the field is
initialized to a vector and never set to null.) -/
def applyAIPhysics (T : Trig) (st : State) (dt : ℚ) : State :=
  -- normalize rotation difference to [-PI, PI] and turn smoothly
  let diff0 := st.aiTargetRotation - st.yaw
  let diff1 := if diff0 > T.pi then diff0 - T.pi * 2 else diff0
  let diff2 := if diff1 < -T.pi then diff1 + T.pi * 2 else diff1
  let yaw1 := st.yaw + qsign diff2 * min |diff2| (steeringSpeed * dt)
  -- ease speed toward target, then clamp
  let s1 : ℚ :=
    if st.currentSpeed < st.aiTargetSpeed then
      st.currentSpeed + acceleration * (1/2) * dt
    else if st.currentSpeed > st.aiTargetSpeed then
      st.currentSpeed - deceleration * dt
    else st.currentSpeed
  let s2 := max (-maxSpeed * (1/2)) (min s1 maxSpeed)
  -- apply movement
  let moveDir := vecForward T yaw1
  let vel1 := Vec3.smul (s2 * dt) moveDir
  let pos1 := Vec3.add st.pos vel1
  -- simplified suspension toward ground height + half height
  let groundY := getGroundHeight pos1.x pos1.z
  let offset := groundY + height / 2 - pos1.y
  let y1 := pos1.y + offset * suspensionStiffness * dt
  let y2 := if y1 < groundY + height * (3/10) then groundY + height * (3/10) else y1
  { st with yaw := yaw1, currentSpeed := s2, vel := vel1,
            pos := ⟨pos1.x, y2, pos1.z⟩ }

/-- Vehicle.applyPhysics (src/Vehicle.ts lines 286-373): cooldown
bookkeeping, then (for non-AI vehicles above the speed epsilon) the
full force-balance integration with drag, rolling resistance,
cornering and suspension. -/
def applyPhysics (T : Trig) (st : State) (dt : ℚ) : State :=
  -- reset collision flag if cooldown has expired
  let st0 :=
    if st.collisionCooldown > 0 then
      let c1 := st.collisionCooldown - dt
      { st with collisionCooldown := c1,
                hasCollidedRecently := if c1 ≤ 0 then false else st.hasCollidedRecently }
    else st
  if st0.isAIControlled then applyAIPhysics T st0 dt
  else if |st0.currentSpeed| > 1/100 then
    let moveDir := vecForward T st0.yaw
    let tractionForce : ℚ :=
      if st0.currentSpeed ≥ 0 then
        enginePower * (if st0.currentSpeed < maxSpeed then 1 else 0)
      else
        -enginePower * (1/2) * (if st0.currentSpeed > -maxSpeed * (1/2) then 1 else 0)
    let dragForce := dragCoefficient * st0.currentSpeed * |st0.currentSpeed|
    let rollingForce := rollingResistance * st0.currentSpeed
    let netForce := tractionForce - dragForce - rollingForce
    let accel := netForce / mass
    let s1 := st0.currentSpeed + accel * dt
    let vel1 := Vec3.smul (s1 * dt) moveDir
    let yaw1 :=
      if |st0.steeringAngle| > 1/100 ∧ |s1| > 1/2 then
        let speedFactor := min (|s1| / 10) 1
        let turnFactor := corneringStiffness * (1 - (1/2) * speedFactor)
        let turnRate := st0.steeringAngle * turnFactor * (if s1 > 0 then 1 else -1)
        st0.yaw + turnRate * dt
      else st0.yaw
    let pos1 := Vec3.add st0.pos vel1
    -- suspension
    let groundY := getGroundHeight pos1.x pos1.z
    let targetHeight := groundY + height / 2
    let offset := targetHeight - pos1.y
    let clamped := max (-suspensionTravel) (min suspensionTravel offset)
    let suspForce := clamped * suspensionStiffness
    let dampForce := (offset - clamped) * suspensionDamping
    let y1 := pos1.y + (suspForce + dampForce) * dt
    let y2 := if y1 < groundY + height * (3/10) then groundY + height * (3/10) else y1
    { st0 with currentSpeed := s1, vel := vel1, yaw := yaw1,
               pos := ⟨pos1.x, y2, pos1.z⟩ }
  else st0

/-- An environment obstacle as consumed by the collision pass: its box,
together with `nrm`, the Euclidean length of `position - center` that
the source computes inside `.normalize()`.  The length is irrational in
general, so it is passed alongside and constrained by the hypothesis
`nrm * nrm = dot (pos - center) (pos - center)` in the theorems that
reach the normalizing branch. -/
structure ObstacleIn where
  box : Box3
  nrm : ℚ
deriving DecidableEq, Repr

/-- The body of the collision loop of Vehicle.handleCollisions
(src/Vehicle.ts lines 449-481), executed when the collider overlaps
`ob`: direction from the obstacle center to the vehicle, normalized
(dividing by `n`), vertical component zeroed afterwards; angle-scaled
speed reduction; push-out along the direction; yaw kick scaled by
impact side and inverse mass. -/
def collisionResponse (T : Trig) (st : State) (ob : Box3) (n : ℚ) : State :=
  let center := ob.getCenter
  let dir0 := Vec3.smul (1 / n) (Vec3.sub st.pos center)   -- .normalize()
  let dir : Vec3 := ⟨dir0.x, 0, dir0.z⟩                    -- direction.y = 0
  let impactSpeed := |st.currentSpeed|
  let impactAngle := |Vec3.dot dir (vecForward T st.yaw)|
  let speedReduction := 1/2 + impactAngle * (1/2)
  let s1 := st.currentSpeed * (1 - speedReduction)
  let pushForce := 1/5 + impactSpeed * (1/20)
  let pos1 : Vec3 := ⟨st.pos.x + dir.x * pushForce, st.pos.y,
                      st.pos.z + dir.z * pushForce⟩
  let impactSide := Vec3.dot dir (vecRight T st.yaw)
  let yaw1 := st.yaw + impactSide * (1/10) * impactSpeed / mass
  { st with currentSpeed := s1, pos := pos1, yaw := yaw1 }

/-- The obstacle loop of Vehicle.handleCollisions: iterate all
obstacles, applying the response on each overlap (the collider field is
not refreshed inside the loop), and report whether any overlap was
seen. -/
def handleCollisionsGo (T : Trig) (st : State) : List ObstacleIn → State × Bool
  | [] => (st, false)
  | ob :: rest =>
    if st.collider.intersectsBox ob.box then
      let (st', _) := handleCollisionsGo T (collisionResponse T st ob.box ob.nrm) rest
      (st', true)
    else
      handleCollisionsGo T st rest

/-- Vehicle.handleCollisions (src/Vehicle.ts lines 439-490): run the
obstacle loop; if anything was hit, raise the recent-collision flag and
restart the 1-second cooldown. -/
def handleCollisions (T : Trig) (st : State) (obstacles : List ObstacleIn) : State :=
  let (st1, hasCollided) := handleCollisionsGo T st obstacles
  if hasCollided then
    { st1 with hasCollidedRecently := true, collisionCooldown := 1 }
  else st1

/-- The control-mode dispatch at the head of Vehicle.update
(src/Vehicle.ts lines 138-148): player control wins when the vehicle is
occupied and an input manager was passed, then AI control, then
unforced physics. -/
inductive ControlMode where
  | player : ControlMode
  | ai : ControlMode
  | free : ControlMode
deriving DecidableEq, Repr

/-- Which branch Vehicle.update takes for the given flags. -/
def updateMode (occupied aiControlled hasInput : Bool) : ControlMode :=
  if occupied && hasInput then .player
  else if aiControlled then .ai
  else .free

/-- Vehicle.update (src/Vehicle.ts lines 138-172): mode dispatch,
collision pass, collider refresh from the mesh at the new position, and
the trailing cooldown decrement. -/
def update (T : Trig) (st : State) (dt : ℚ) (input : Option DriveInput)
    (obstacles : List ObstacleIn) : State :=
  let st1 :=
    match updateMode st.isOccupied st.isAIControlled input.isSome with
    | .player => handleDriving T st dt (input.getD ⟨false, false, false, false⟩)
    | .ai => applyAIPhysics T st dt
    | .free => applyPhysics T st dt
  let st2 := handleCollisions T st1 obstacles
  let st3 := { st2 with collider := vehBox st2.pos }
  if st3.collisionCooldown > 0 then
    { st3 with collisionCooldown := st3.collisionCooldown - dt }
  else st3

/-- Vehicle.updateSimple (src/Vehicle.ts lines 179-212): reduced
deceleration-and-advance update for distant vehicles.  `refresh` is the
outcome of the `Math.random() > 0.5` roll deciding whether the collider
is refreshed this frame. -/
def updateSimple (T : Trig) (st : State) (dt intensityFactor : ℚ)
    (refresh : Bool) : State :=
  let s1 :=
    if st.currentSpeed > 0 then
      let a := st.currentSpeed * (1 - (1/2) * dt * intensityFactor)
      if a < 1/10 then 0 else a
    else st.currentSpeed
  let st1 := { st with currentSpeed := s1 }
  let st2 :=
    if s1 > 0 then
      let dir := vecForward T st.yaw
      { st1 with pos := ⟨st1.pos.x + dir.x * s1 * dt, st1.pos.y,
                         st1.pos.z + dir.z * s1 * dt⟩ }
    else st1
  if refresh then { st2 with collider := vehBox st2.pos } else st2

/-- Vehicle.enterVehicle (src/Vehicle.ts lines 503-508). -/
def enterVehicle (st : State) : State := { st with isOccupied := true }

/-- Vehicle.exitVehicle (src/Vehicle.ts lines 510-520). -/
def exitVehicle (st : State) : State := { st with isOccupied := false }

/-- Vehicle.setAIControlled (src/Vehicle.ts lines 531-533): sets the
flag unconditionally. -/
def setAIControlled (st : State) (isAI : Bool) : State :=
  { st with isAIControlled := isAI }

/-- Vehicle.setAITargetRotation (src/Vehicle.ts lines 545-547). -/
def setAITargetRotation (st : State) (r : ℚ) : State :=
  { st with aiTargetRotation := r }

/-- Vehicle.setAITargetSpeed (src/Vehicle.ts lines 552-554). -/
def setAITargetSpeed (st : State) (s : ℚ) : State :=
  { st with aiTargetSpeed := s }

end Vehicle

/-- Player.enterVehicle (Player.ts lines 349-362): guarded by the
player not already being in a vehicle and the vehicle being unoccupied;
it marks the vehicle occupied and does not touch the AI-control flag. -/
def playerEnterVehicle (playerIsInVehicle : Bool) (v : Vehicle.State) : Vehicle.State :=
  if playerIsInVehicle = false ∧ v.isOccupied = false then Vehicle.enterVehicle v
  else v

/-- The vehicle states reachable in the simulation through the
operations of the sources: construction, full and simplified updates,
the traffic AI setters (VehicleManager.updateVehicleAI calls
setAIControlled/setAITarget* on every nearby vehicle), and the
player-facing enter/exit commands (entry goes through the guard of
Player.enterVehicle). -/
inductive VehReach : Vehicle.State → Prop where
  | init (p : Vec3) (r : ℚ) : VehReach (Vehicle.mkVehicle p r)
  | step (T : Trig) (dt : ℚ) (input : Option Vehicle.DriveInput)
      (obstacles : List Vehicle.ObstacleIn) {st : Vehicle.State} :
      VehReach st → VehReach (Vehicle.update T st dt input obstacles)
  | stepSimple (T : Trig) (dt i : ℚ) (refresh : Bool) {st : Vehicle.State} :
      VehReach st → VehReach (Vehicle.updateSimple T st dt i refresh)
  | setAI (b : Bool) {st : Vehicle.State} :
      VehReach st → VehReach (Vehicle.setAIControlled st b)
  | setAIRot (r : ℚ) {st : Vehicle.State} :
      VehReach st → VehReach (Vehicle.setAITargetRotation st r)
  | setAISpd (s : ℚ) {st : Vehicle.State} :
      VehReach st → VehReach (Vehicle.setAITargetSpeed st s)
  | playerEnter {st : Vehicle.State} :
      VehReach st → st.isOccupied = false → VehReach (playerEnterVehicle false st)
  | playerExit {st : Vehicle.State} :
      VehReach st → VehReach (Vehicle.exitVehicle st)

/-- Pedestrian behavior states (Pedestrian.ts, enum PedestrianState). -/
inductive PedestrianState where
  | idle : PedestrianState
  | walking : PedestrianState
  | running : PedestrianState
  | panicking : PedestrianState
  | waitingToCross : PedestrianState
  | enteringVehicle : PedestrianState
  | exitingVehicle : PedestrianState
deriving DecidableEq, Repr

namespace Pedestrian

/-- Movement and interaction constants (Pedestrian.ts lines 97-103). -/
def walkSpeed : ℚ := 6 / 5

def runSpeed : ℚ := 4

def panicSpeed : ℚ := 5

def turnSpeed : ℚ := 2

def fleeRadius : ℚ := 8

/-- The mutable state of a Pedestrian instance (Pedestrian.ts).  The
collider box (recomputed from the position) carries no behavior the
claims depend on and is omitted. -/
structure State where
  pos : Vec3
  yaw : ℚ
  state : PedestrianState
  targetPosition : Option Vec3
  path : List Vec3
  currentPathIndex : ℕ
  stateTime : ℚ
  waitTime : ℚ
  maxWaitTime : ℚ
deriving DecidableEq, Repr

/-- The Pedestrian constructor (Pedestrian.ts lines 106-137): starts
Idle at the ground, with no target and an empty path. -/
def mkPedestrian (initialPosition : Vec3) (initialRotation : ℚ) : State :=
  { pos := ⟨initialPosition.x,
            getGroundHeight initialPosition.x initialPosition.z,
            initialPosition.z⟩,
    yaw := initialRotation, state := .idle, targetPosition := none,
    path := [], currentPathIndex := 0, stateTime := 0, waitTime := 0,
    maxWaitTime := 5 }

/-- Pedestrian.setState (Pedestrian.ts lines 391-422): no-op on the
same state, otherwise switch the state and reset the state timer (the
rest of the method only selects animations).  Note that it touches
neither `path` nor `targetPosition`. -/
def setState (st : State) (newState : PedestrianState) : State :=
  if st.state = newState then st
  else { st with state := newState, stateTime := 0 }

/-- Pedestrian.findNewDestination (Pedestrian.ts lines 427-438):
random point 10-30 units away at a random angle; the path is the
single-element direct path to it.  `rDist` and `rAngle` are the two
Math.random() draws. -/
def findNewDestination (T : Trig) (st : State) (rDist rAngle : ℚ) : State :=
  let distance := 10 + rDist * 20
  let angle := rAngle * T.pi * 2
  let target : Vec3 := ⟨st.pos.x + T.sin angle * distance, 0,
                        st.pos.z + T.cos angle * distance⟩
  { st with targetPosition := some target, path := [target],
            currentPathIndex := 0 }

/-- Pedestrian.updateIdleState (Pedestrian.ts lines 187-199): after a
randomized dwell (3-8 s), walk with 80% probability, otherwise reset
the timer and stay idle.  `rDwell`, `rWalk` are the Math.random() draws
of the two conditions, `rDist`/`rAngle` those of findNewDestination. -/
def updateIdleState (T : Trig) (st : State) (rDwell rWalk rDist rAngle : ℚ) : State :=
  if st.stateTime > 3 + rDwell * 5 then
    if rWalk < 4/5 then
      setState (findNewDestination T st rDist rAngle) .walking
    else
      { st with stateTime := 0 }
  else st

/-- Pedestrian.checkPlayerProximity (Pedestrian.ts lines 515-534):
within the flee radius, a vehicle-mounted player always causes
Panicking; a player on foot causes Running with probability 20%
(draw `rFlee`).  The radius test `distanceTo < 8` is modelled by the
equivalent `dist2 < 64`. -/
def checkPlayerProximity (st : State) (playerPos : Vec3)
    (playerInsideVehicle : Bool) (rFlee : ℚ) : State :=
  if Vec3.dist2 st.pos playerPos < fleeRadius * fleeRadius then
    if playerInsideVehicle then
      setState { st with targetPosition := some playerPos } .panicking
    else if playerInsideVehicle = false ∧ rFlee < 1/5 then
      setState { st with targetPosition := some playerPos } .running
    else st
  else st

/-- Pedestrian.checkVehicleProximity (Pedestrian.ts lines 539-555):
the first vehicle (in list order) within the flee radius moving faster
than 10 triggers Panicking toward it and stops the loop.  A vehicle is
given by its position and current speed. -/
def checkVehicleProximity (st : State) : List (Vec3 × ℚ) → State
  | [] => st
  | (vpos, vspeed) :: rest =>
    if Vec3.dist2 st.pos vpos < fleeRadius * fleeRadius ∧ vspeed > 10 then
      setState { st with targetPosition := some vpos } .panicking
    else
      checkVehicleProximity st rest

/-- Pedestrian.updateSimple (Pedestrian.ts lines 571-612): distant
pedestrians advance along their heading at half speed when Walking or
Running (with a 1% chance of a random turn, draws `rTurnGate` and
`rTurnAmt`); otherwise a 0.5% chance (draw `rToggle`) toggles between
Idle and Walking without establishing any destination. -/
def updateSimple (T : Trig) (st : State) (dt : ℚ)
    (rTurnGate rTurnAmt rToggle : ℚ) : State :=
  let st0 := { st with stateTime := st.stateTime + dt }
  if st0.state = .walking ∨ st0.state = .running then
    let speed := if st0.state = .walking then walkSpeed * (1/2) else runSpeed * (1/2)
    let dir := vecForward T st0.yaw
    let px := st0.pos.x + dir.x * speed * dt
    let pz := st0.pos.z + dir.z * speed * dt
    let st1 := { st0 with pos := ⟨px, getGroundHeight px pz, pz⟩ }
    if rTurnGate < 1/100 then
      { st1 with yaw := st1.yaw + (rTurnAmt - 1/2) * T.pi }
    else st1
  else if rToggle < 1/200 then
    if st0.state = .idle then setState st0 .walking
    else setState st0 .idle
  else st0

end Pedestrian

namespace VehicleManager

/-- An entry of the traffic AI forward scan: another vehicle given by
its position and `nrm`, the Euclidean distance from the scanning
vehicle (`position.distanceTo(otherPosition)`), supplied explicitly
because it is irrational in general. -/
structure ScanVehicle where
  pos : Vec3
  nrm : ℚ
deriving DecidableEq, Repr

/-- An entry of the traffic AI forward scan: an environment obstacle
box and `nrm`, the Euclidean distance from the scanning vehicle to the
box center. -/
structure ScanObstacle where
  box : Box3
  nrm : ℚ
deriving DecidableEq, Repr

/-- The vehicle loop of VehicleManager.checkForObstacles
(src/VehicleManager.ts lines 210-226): iterate the other vehicles (the
scanning vehicle itself is already removed from the list); the first
one closer than 20 units whose normalized direction has dot product
above 0.7 with the forward direction makes the whole scan return
`min distance 20` immediately. -/
def scanVehicles (self dir : Vec3) : List ScanVehicle → Option ℚ
  | [] => none
  | v :: rest =>
    if v.nrm < 20 ∧ Vec3.dot dir (Vec3.smul (1 / v.nrm) (Vec3.sub v.pos self)) > 7/10 then
      some (min v.nrm 20)
    else scanVehicles self dir rest

/-- The obstacle loop of VehicleManager.checkForObstacles
(src/VehicleManager.ts lines 229-247): fold the minimum distance over
all obstacles whose center direction is within the forward cone,
starting from 20. -/
def scanObstacles (self dir : Vec3) : List ScanObstacle → ℚ → ℚ
  | [], minDistance => minDistance
  | o :: rest, minDistance =>
    let c := o.box.getCenter
    if Vec3.dot dir (Vec3.smul (1 / o.nrm) (Vec3.sub c self)) > 7/10 then
      scanObstacles self dir rest (min minDistance o.nrm)
    else scanObstacles self dir rest minDistance

/-- VehicleManager.checkForObstacles (src/VehicleManager.ts lines
204-248): the vehicle loop returns on its first match; only when no
vehicle matches does the obstacle fold run. -/
def checkForObstacles (self dir : Vec3) (vehs : List ScanVehicle)
    (obs : List ScanObstacle) : ℚ :=
  match scanVehicles self dir vehs with
  | some d => d
  | none => scanObstacles self dir obs 20

/-- The base AI speed of VehicleManager.updateVehicleAI
(src/VehicleManager.ts line 169). -/
def baseSpeed : ℚ := 5

/-- The speed adjustment of VehicleManager.updateVehicleAI
(src/VehicleManager.ts lines 177-181): linear slow-down within 10
units of the scanned obstacle distance. -/
def aiAdjustedSpeed (obstacleDistance : ℚ) : ℚ :=
  if obstacleDistance < 10 then baseSpeed * (obstacleDistance / 10)
  else baseSpeed

/-- Modelled from the spec (§4.3 step 4, the sentence behind claim C8):
"for every other vehicle and every obstacle within a 20-unit radius and
within ~45° of the forward vector, compute distance; take the minimum
as obstacleDistance", with the default of 20 when nothing qualifies.
This is the comparison definition the source is checked against; it is
not the source's algorithm. -/
def specForwardScanMin (self dir : Vec3) (vehs : List ScanVehicle)
    (obs : List ScanObstacle) : ℚ :=
  let vds := (vehs.filter (fun v =>
    decide (v.nrm < 20 ∧
      Vec3.dot dir (Vec3.smul (1 / v.nrm) (Vec3.sub v.pos self)) > 7/10))).map ScanVehicle.nrm
  let ods := (obs.filter (fun o =>
    decide (o.nrm < 20 ∧
      Vec3.dot dir (Vec3.smul (1 / o.nrm) (Vec3.sub o.box.getCenter self)) > 7/10))).map ScanObstacle.nrm
  (vds ++ ods).foldr min 20

/-- A road segment of the simplified road network
(src/VehicleManager.ts line 40): start, end, width.  `segLen` is the
Euclidean length of `end - start` (the value `.normalize()` divides
by), supplied explicitly because it is irrational in general; the
road network defined by defineRoadNetwork has axis-aligned segments of
length 100, so it is exact there. -/
structure RoadSegment where
  segStart : Vec3
  segEnd : Vec3
  width : ℚ
  segLen : ℚ
deriving DecidableEq, Repr

/-- The manager state: the traffic vehicle list and the population
cap (src/VehicleManager.ts lines 13, 30), plus the fixed road
network. -/
structure MState where
  vehicles : List Vehicle.State
  maxVehicles : ℕ
  roadSegments : List RoadSegment
deriving Repr

/-- Spawn-band radii (src/VehicleManager.ts lines 31-33). -/
def spawnRadius : ℚ := 60

def despawnRadius : ℚ := 80

def minSpawnDistance : ℚ := 20

/-- THREE.Vector3.lerpVectors. -/
def lerpVec (a b : Vec3) (t : ℚ) : Vec3 :=
  ⟨a.x + (b.x - a.x) * t, a.y + (b.y - a.y) * t, a.z + (b.z - a.z) * t⟩

/-- VehicleManager.isValidSpawnPosition (src/VehicleManager.ts lines
408-432): a fixed 2x1.5x4 box around the candidate must not overlap
any obstacle, and the candidate must be at least 5 units from every
existing vehicle (`distance < 5` is modelled as `dist2 < 25`). -/
def isValidSpawnPosition (obstacles : List Box3)
    (vehicles : List Vehicle.State) (position : Vec3) : Prop :=
  (∀ ob ∈ obstacles, ¬ Box3.intersectsBox
      ⟨⟨position.x - 1, position.y, position.z - 2⟩,
       ⟨position.x + 1, position.y + 3/2, position.z + 2⟩⟩ ob) ∧
  (∀ v ∈ vehicles, ¬ Vec3.dist2 position v.pos < 25)

instance (obstacles : List Box3) (vehicles : List Vehicle.State) (p : Vec3) :
    Decidable (isValidSpawnPosition obstacles vehicles p) := by
  unfold isValidSpawnPosition; infer_instance

/-- VehicleManager.findSpawnRoad (src/VehicleManager.ts lines
390-403): filter roads whose midpoint distance to the player lies in
(minSpawnDistance, spawnRadius) (squared comparison), then pick a
random candidate; the random index `Math.floor(Math.random() * n)` is
modelled by `rPick % n`. -/
def findSpawnRoad (playerPos : Vec3) (roads : List RoadSegment)
    (rPick : ℕ) : Option RoadSegment :=
  let candidateRoads := roads.filter (fun road =>
    let roadCenter := lerpVec road.segStart road.segEnd (1/2)
    decide (Vec3.dist2 roadCenter playerPos > minSpawnDistance * minSpawnDistance ∧
            Vec3.dist2 roadCenter playerPos < spawnRadius * spawnRadius))
  if candidateRoads.length = 0 then none
  else candidateRoads.get? (rPick % candidateRoads.length)

/-- VehicleManager.trySpawnVehicle (src/VehicleManager.ts lines
343-385): silently return at the population cap; otherwise pick a road
and a random point across its width, validate it, and append a new
vehicle oriented along (or against, on the `flip` coin) the road.
`rT`/`rOff` are the Math.random() draws for the position. -/
def trySpawnVehicle (T : Trig) (m : MState) (playerPos : Vec3)
    (obstacles : List Box3) (rPick : ℕ) (rT rOff : ℚ) (flip : Bool) : MState :=
  if m.vehicles.length ≥ m.maxVehicles then m
  else
    match findSpawnRoad playerPos m.roadSegments rPick with
    | none => m
    | some spawnRoad =>
      let position0 := lerpVec spawnRoad.segStart spawnRoad.segEnd rT
      let roadDirection := Vec3.smul (1 / spawnRoad.segLen)
        (Vec3.sub spawnRoad.segEnd spawnRoad.segStart)
      let perpendicular : Vec3 := ⟨-roadDirection.z, 0, roadDirection.x⟩
      let position1 := Vec3.add position0
        (Vec3.smul ((rOff - 1/2) * spawnRoad.width * (4/5)) perpendicular)
      let position : Vec3 := ⟨position1.x,
        getGroundHeight position1.x position1.z + 1/2, position1.z⟩
      if isValidSpawnPosition obstacles m.vehicles position then
        let rotation := T.atan2 roadDirection.x roadDirection.z
        let finalRotation := if flip then rotation + T.pi else rotation
        { m with vehicles := m.vehicles ++ [Vehicle.mkVehicle position finalRotation] }
      else m

end VehicleManager

namespace PedestrianManager

/-- The manager state: the pedestrian list and the population cap
(PedestrianManager.ts lines 375-376). -/
structure MState where
  pedestrians : List Pedestrian.State
  maxPedestrians : ℕ
deriving DecidableEq, Repr

/-- Spawn-band radii (PedestrianManager.ts lines 377-379). -/
def spawnRadius : ℚ := 50

def despawnRadius : ℚ := 70

def minSpawnDistance : ℚ := 15

/-- PedestrianManager.isValidSpawnPosition (PedestrianManager.ts lines
521-545): a 0.6x1.8x0.6 box around the candidate must not overlap any
obstacle, and the candidate must be at least 1.5 units from every
existing pedestrian (`distance < 1.5` modelled as `dist2 < 9/4`). -/
def isValidSpawnPosition (obstacles : List Box3)
    (pedestrians : List Pedestrian.State) (position : Vec3) : Prop :=
  (∀ ob ∈ obstacles, ¬ Box3.intersectsBox
      ⟨⟨position.x - 3/10, position.y, position.z - 3/10⟩,
       ⟨position.x + 3/10, position.y + 9/5, position.z + 3/10⟩⟩ ob) ∧
  (∀ p ∈ pedestrians, ¬ Vec3.dist2 position p.pos < 9/4)

instance (obstacles : List Box3) (pedestrians : List Pedestrian.State) (p : Vec3) :
    Decidable (isValidSpawnPosition obstacles pedestrians p) := by
  unfold isValidSpawnPosition; infer_instance

/-- PedestrianManager.findSpawnPosition (PedestrianManager.ts lines
494-516): up to 10 attempts at a random polar offset from the player
within [minSpawnDistance, spawnRadius]; each attempt is a pair of
Math.random() draws (angle, distance), modelled as the list
`attempts` (of length 10 in the source). -/
def findSpawnPosition (T : Trig) (playerPos : Vec3) (obstacles : List Box3)
    (pedestrians : List Pedestrian.State) :
    List (ℚ × ℚ) → Option Vec3
  | [] => none
  | (rAngle, rDist) :: rest =>
    let angle := rAngle * T.pi * 2
    let distance := minSpawnDistance + rDist * (spawnRadius - minSpawnDistance)
    let x := playerPos.x + T.sin angle * distance
    let z := playerPos.z + T.cos angle * distance
    let position : Vec3 := ⟨x, getGroundHeight x z, z⟩
    if isValidSpawnPosition obstacles pedestrians position then some position
    else findSpawnPosition T playerPos obstacles pedestrians rest

/-- PedestrianManager.trySpawnPedestrian (PedestrianManager.ts lines
472-489): silently return at the population cap; otherwise spawn at a
validated position, with a random initial rotation (draw `rRot`). -/
def trySpawnPedestrian (T : Trig) (m : MState) (playerPos : Vec3)
    (obstacles : List Box3) (attempts : List (ℚ × ℚ)) (rRot : ℚ) : MState :=
  if m.pedestrians.length ≥ m.maxPedestrians then m
  else
    match findSpawnPosition T playerPos obstacles m.pedestrians attempts with
    | none => m
    | some spawnPos =>
      { m with pedestrians :=
          m.pedestrians ++ [Pedestrian.mkPedestrian spawnPos (rRot * T.pi * 2)] }

end PedestrianManager

/-! ## Helper lemmas -/

/-- A concrete Trig record used by closed witness and counterexample
statements (the theorems hold for every Trig, so any instantiation is
admissible; this one keeps all arithmetic exact). -/
def trig0 : Trig := ⟨fun _ => 0, fun _ => 1, 314159 / 100000, fun _ _ => 0⟩

/-- setState always lands in the requested state. -/
theorem Pedestrian.setState_state (st : Pedestrian.State) (s : PedestrianState) :
    (Pedestrian.setState st s).state = s := by
  rw [Pedestrian.setState]
  split_ifs with h
  · exact h
  · rfl

/-- setState never touches the path. -/
theorem Pedestrian.setState_path (st : Pedestrian.State) (s : PedestrianState) :
    (Pedestrian.setState st s).path = st.path := by
  rw [Pedestrian.setState]
  split_ifs <;> rfl

/-- setState never touches the target position. -/
theorem Pedestrian.setState_targetPosition (st : Pedestrian.State) (s : PedestrianState) :
    (Pedestrian.setState st s).targetPosition = st.targetPosition := by
  rw [Pedestrian.setState]
  split_ifs <;> rfl

/-- The collision loop does nothing and reports no hit when the
collider overlaps none of the obstacles. -/
theorem Vehicle.handleCollisionsGo_no_hit (T : Trig) (st : Vehicle.State)
    (obstacles : List Vehicle.ObstacleIn)
    (h : ∀ ob ∈ obstacles, ¬ Box3.intersectsBox st.collider ob.box) :
    Vehicle.handleCollisionsGo T st obstacles = (st, false) := by
  induction obstacles with
  | nil => rfl
  | cons ob rest ih =>
    rw [Vehicle.handleCollisionsGo]
    rw [if_neg (h ob (List.mem_cons_self ob rest))]
    exact ih fun o ho => h o (List.mem_cons_of_mem ob ho)

/-- handleCollisions is the identity when nothing overlaps. -/
theorem Vehicle.handleCollisions_no_hit (T : Trig) (st : Vehicle.State)
    (obstacles : List Vehicle.ObstacleIn)
    (h : ∀ ob ∈ obstacles, ¬ Box3.intersectsBox st.collider ob.box) :
    Vehicle.handleCollisions T st obstacles = st := by
  rw [Vehicle.handleCollisions, Vehicle.handleCollisionsGo_no_hit T st obstacles h]
  rfl

/-! ## C10 -/

/-- C10: for every vehicle whose currentSpeed is at most zero, the
simplified update (Vehicle.updateSimple) leaves currentSpeed, position
and rotation unchanged, for any deltaTime and intensityFactor: the
simplified update only decelerates and advances vehicles with strictly
positive speed. -/
theorem updateSimple_nonpositive_speed_frozen (T : Trig) (st : Vehicle.State)
    (dt intensityFactor : ℚ) (refresh : Bool)
    (h : st.currentSpeed ≤ 0) :
    (Vehicle.updateSimple T st dt intensityFactor refresh).currentSpeed = st.currentSpeed ∧
    (Vehicle.updateSimple T st dt intensityFactor refresh).pos = st.pos ∧
    (Vehicle.updateSimple T st dt intensityFactor refresh).yaw = st.yaw := by
  have h1 : ¬ st.currentSpeed > 0 := not_lt.mpr h
  simp only [Vehicle.updateSimple, h1, if_false, ite_false]
  split <;> simp

/-- Witness for C10 at a reversing vehicle (speed -2). -/
theorem updateSimple_nonpositive_speed_frozen_witness :
    (({ Vehicle.mkVehicle ⟨3, 0, 4⟩ 1 with currentSpeed := -2 } : Vehicle.State).currentSpeed ≤ 0) ∧
    ((Vehicle.updateSimple trig0 { Vehicle.mkVehicle ⟨3, 0, 4⟩ 1 with currentSpeed := -2 } (1/30) (1/2) true).currentSpeed
        = ({ Vehicle.mkVehicle ⟨3, 0, 4⟩ 1 with currentSpeed := -2 } : Vehicle.State).currentSpeed ∧
      (Vehicle.updateSimple trig0 { Vehicle.mkVehicle ⟨3, 0, 4⟩ 1 with currentSpeed := -2 } (1/30) (1/2) true).pos
        = ({ Vehicle.mkVehicle ⟨3, 0, 4⟩ 1 with currentSpeed := -2 } : Vehicle.State).pos ∧
      (Vehicle.updateSimple trig0 { Vehicle.mkVehicle ⟨3, 0, 4⟩ 1 with currentSpeed := -2 } (1/30) (1/2) true).yaw
        = ({ Vehicle.mkVehicle ⟨3, 0, 4⟩ 1 with currentSpeed := -2 } : Vehicle.State).yaw) :=
  ⟨by decide,
   updateSimple_nonpositive_speed_frozen trig0 _ (1/30) (1/2) true (by decide)⟩

/-! ## C9 -/

/-- C9: when a population is at or above its configured maximum, a
spawn attempt (PedestrianManager.trySpawnPedestrian,
VehicleManager.trySpawnVehicle) returns without adding any entity and
without raising an error, leaving the manager state unchanged. -/
theorem trySpawn_at_cap_is_noop (T : Trig) (pm : PedestrianManager.MState)
    (vm : VehicleManager.MState) (playerPos : Vec3) (obstacles : List Box3)
    (attempts : List (ℚ × ℚ)) (rRot : ℚ) (rPick : ℕ) (rT rOff : ℚ) (flip : Bool)
    (hp : pm.pedestrians.length ≥ pm.maxPedestrians)
    (hv : vm.vehicles.length ≥ vm.maxVehicles) :
    PedestrianManager.trySpawnPedestrian T pm playerPos obstacles attempts rRot = pm ∧
    VehicleManager.trySpawnVehicle T vm playerPos obstacles rPick rT rOff flip = vm := by
  constructor
  · rw [PedestrianManager.trySpawnPedestrian, if_pos hp]
  · rw [VehicleManager.trySpawnVehicle, if_pos hv]

/-- Witness for C9: the spec scenario, maxPedestrians = 1 with one
pedestrian already spawned (and the vehicle manager at its cap of 1);
a spawn attempt does not change the population. -/
theorem trySpawn_at_cap_is_noop_witness :
    ((⟨[Pedestrian.mkPedestrian ⟨10, 0, 10⟩ 0], 1⟩ : PedestrianManager.MState).pedestrians.length
        ≥ (⟨[Pedestrian.mkPedestrian ⟨10, 0, 10⟩ 0], 1⟩ : PedestrianManager.MState).maxPedestrians) ∧
    PedestrianManager.trySpawnPedestrian trig0 ⟨[Pedestrian.mkPedestrian ⟨10, 0, 10⟩ 0], 1⟩
        ⟨0, 0, 0⟩ [] [(0, 0)] 0
      = ⟨[Pedestrian.mkPedestrian ⟨10, 0, 10⟩ 0], 1⟩ ∧
    VehicleManager.trySpawnVehicle trig0 ⟨[Vehicle.mkVehicle ⟨0, 0, 0⟩ 0], 1, []⟩
        ⟨0, 0, 0⟩ [] 0 0 0 false
      = ⟨[Vehicle.mkVehicle ⟨0, 0, 0⟩ 0], 1, []⟩ :=
  ⟨by decide,
   (trySpawn_at_cap_is_noop trig0 ⟨[Pedestrian.mkPedestrian ⟨10, 0, 10⟩ 0], 1⟩
      ⟨[Vehicle.mkVehicle ⟨0, 0, 0⟩ 0], 1, []⟩ ⟨0, 0, 0⟩ [] [(0, 0)] 0 0 0 0 false
      (by decide) (by decide)).1,
   (trySpawn_at_cap_is_noop trig0 ⟨[Pedestrian.mkPedestrian ⟨10, 0, 10⟩ 0], 1⟩
      ⟨[Vehicle.mkVehicle ⟨0, 0, 0⟩ 0], 1, []⟩ ⟨0, 0, 0⟩ [] [(0, 0)] 0 0 0 0 false
      (by decide) (by decide)).2⟩

/-! ## C3 -/

/-- Counterexample to C3: a pedestrian 5 units from a player on foot,
with the 20% probability check succeeding (draw 0.1 < 0.2), transitions
to Running, not to Panicking as the claim states
(Pedestrian.checkPlayerProximity). -/
theorem checkPlayerProximity_on_foot_runs_counterexample :
    (Pedestrian.checkPlayerProximity (Pedestrian.mkPedestrian ⟨0, 0, 0⟩ 0)
        ⟨5, 0, 0⟩ false (1/10)).state = PedestrianState.running ∧
    PedestrianState.running ≠ PedestrianState.panicking := by
  norm_num [Pedestrian.checkPlayerProximity, Pedestrian.mkPedestrian,
    Pedestrian.setState, Vec3.dist2, Vec3.dot, Vec3.sub, Pedestrian.fleeRadius,
    getGroundHeight]
  decide

/-- C3 amended: for every pedestrian in any state, when the player is
within the flee radius (8 units): if the player is inside a vehicle the
pedestrian's state becomes Panicking (always); if the player is on
foot, the pedestrian's state becomes Running with probability 20% on
each frame's check (Pedestrian.checkPlayerProximity). -/
theorem checkPlayerProximity_flee (st : Pedestrian.State) (playerPos : Vec3) (r : ℚ)
    (hnear : Vec3.dist2 st.pos playerPos < Pedestrian.fleeRadius * Pedestrian.fleeRadius) :
    (Pedestrian.checkPlayerProximity st playerPos true r).state = PedestrianState.panicking ∧
    (r < 1/5 →
      (Pedestrian.checkPlayerProximity st playerPos false r).state = PedestrianState.running) := by
  constructor
  · simp [Pedestrian.checkPlayerProximity, if_pos hnear, Pedestrian.setState_state]
  · intro hr
    have hr' : r < 5⁻¹ := by rw [← one_div]; exact hr
    simp [Pedestrian.checkPlayerProximity, if_pos hnear, hr', Pedestrian.setState_state]

/-- Witness for C3 amended: the player 5 units away; a mounted player
always panics the pedestrian, a player on foot with draw 0.1 makes it
run. -/
theorem checkPlayerProximity_flee_witness :
    (Vec3.dist2 (Pedestrian.mkPedestrian ⟨0, 0, 0⟩ 0).pos ⟨5, 0, 0⟩
        < Pedestrian.fleeRadius * Pedestrian.fleeRadius) ∧
    (Pedestrian.checkPlayerProximity (Pedestrian.mkPedestrian ⟨0, 0, 0⟩ 0)
        ⟨5, 0, 0⟩ true (1/10)).state = PedestrianState.panicking ∧
    ((1 : ℚ)/10 < 1/5 →
      (Pedestrian.checkPlayerProximity (Pedestrian.mkPedestrian ⟨0, 0, 0⟩ 0)
          ⟨5, 0, 0⟩ false (1/10)).state = PedestrianState.running) :=
  ⟨by norm_num [Vec3.dist2, Vec3.dot, Vec3.sub, Pedestrian.mkPedestrian,
      Pedestrian.fleeRadius, getGroundHeight],
   (checkPlayerProximity_flee (Pedestrian.mkPedestrian ⟨0, 0, 0⟩ 0) ⟨5, 0, 0⟩ (1/10)
      (by norm_num [Vec3.dist2, Vec3.dot, Vec3.sub, Pedestrian.mkPedestrian,
        Pedestrian.fleeRadius, getGroundHeight])).1,
   (checkPlayerProximity_flee (Pedestrian.mkPedestrian ⟨0, 0, 0⟩ 0) ⟨5, 0, 0⟩ (1/10)
      (by norm_num [Vec3.dist2, Vec3.dot, Vec3.sub, Pedestrian.mkPedestrian,
        Pedestrian.fleeRadius, getGroundHeight])).2⟩

/-! ## C4 -/

/-- Counterexample to C4: the simplified pedestrian update can toggle
an Idle pedestrian into Walking (draw 0.001 < 0.005) with
targetPosition still null and the path still empty, violating the
claimed invariant for the Walking state (Pedestrian.updateSimple). -/
theorem updateSimple_walking_without_target_counterexample :
    (Pedestrian.updateSimple trig0 (Pedestrian.mkPedestrian ⟨0, 0, 0⟩ 0)
        (1/60) 1 1 (1/1000)).state = PedestrianState.walking ∧
    (Pedestrian.updateSimple trig0 (Pedestrian.mkPedestrian ⟨0, 0, 0⟩ 0)
        (1/60) 1 1 (1/1000)).targetPosition = none ∧
    (Pedestrian.updateSimple trig0 (Pedestrian.mkPedestrian ⟨0, 0, 0⟩ 0)
        (1/60) 1 1 (1/1000)).path = [] := by
  norm_num [Pedestrian.updateSimple, Pedestrian.mkPedestrian,
    Pedestrian.setState, getGroundHeight]
  decide

/-- C4 amended: the Idle-to-Walking transition of the full update's
dwell logic (Pedestrian.updateIdleState, via findNewDestination) does
set targetPosition and the one-element path; but transitions performed
by Pedestrian.setState alone - in particular every transition into
Idle - leave path and targetPosition unchanged (nothing is cleared),
so proximity- and simplified-update transitions establish no path. -/
theorem updateIdleState_walk_sets_path_and_setState_preserves
    (T : Trig) (st : Pedestrian.State) (rDwell rWalk rDist rAngle : ℚ)
    (hdwell : st.stateTime > 3 + rDwell * 5) (hwalk : rWalk < 4/5) :
    ((Pedestrian.updateIdleState T st rDwell rWalk rDist rAngle).state = PedestrianState.walking ∧
      (∃ t, (Pedestrian.updateIdleState T st rDwell rWalk rDist rAngle).targetPosition = some t ∧
        (Pedestrian.updateIdleState T st rDwell rWalk rDist rAngle).path = [t])) ∧
    (∀ p : Pedestrian.State, ∀ s : PedestrianState,
      (Pedestrian.setState p s).path = p.path ∧
      (Pedestrian.setState p s).targetPosition = p.targetPosition) := by
  refine ⟨⟨?_, ?_⟩, fun p s => ⟨Pedestrian.setState_path p s, Pedestrian.setState_targetPosition p s⟩⟩
  · rw [Pedestrian.updateIdleState, if_pos hdwell, if_pos hwalk]
    exact Pedestrian.setState_state _ _
  · rw [Pedestrian.updateIdleState, if_pos hdwell, if_pos hwalk]
    refine ⟨⟨st.pos.x + T.sin (rAngle * T.pi * 2) * (10 + rDist * 20), 0,
             st.pos.z + T.cos (rAngle * T.pi * 2) * (10 + rDist * 20)⟩, ?_, ?_⟩
    · rw [Pedestrian.setState_targetPosition]
      rfl
    · rw [Pedestrian.setState_path]
      rfl

/-- Witness for C4 amended: a pedestrian past its dwell time (10 s)
whose walk draw succeeds. -/
theorem updateIdleState_walk_sets_path_witness :
    (({ Pedestrian.mkPedestrian ⟨0, 0, 0⟩ 0 with stateTime := 10 } : Pedestrian.State).stateTime
        > 3 + 0 * 5) ∧
    ((1 : ℚ)/2 < 4/5) ∧
    ((Pedestrian.updateIdleState trig0 { Pedestrian.mkPedestrian ⟨0, 0, 0⟩ 0 with stateTime := 10 }
        0 (1/2) 0 0).state = PedestrianState.walking ∧
      (∃ t, (Pedestrian.updateIdleState trig0 { Pedestrian.mkPedestrian ⟨0, 0, 0⟩ 0 with stateTime := 10 }
          0 (1/2) 0 0).targetPosition = some t ∧
        (Pedestrian.updateIdleState trig0 { Pedestrian.mkPedestrian ⟨0, 0, 0⟩ 0 with stateTime := 10 }
          0 (1/2) 0 0).path = [t])) :=
  ⟨by norm_num [Pedestrian.mkPedestrian, getGroundHeight],
   by norm_num,
   (updateIdleState_walk_sets_path_and_setState_preserves trig0
      { Pedestrian.mkPedestrian ⟨0, 0, 0⟩ 0 with stateTime := 10 } 0 (1/2) 0 0
      (by norm_num [Pedestrian.mkPedestrian, getGroundHeight]) (by norm_num)).1⟩

/-! ## C1 -/

/-- Counterexample to C1: in the unforced coasting mode
(Vehicle.applyPhysics), a vehicle whose speed 29.99 is within
[-maxSpeed/2, maxSpeed] exceeds maxSpeed = 30 after a single capped
frame (dt = 0.1): full engine power is applied whenever the speed is
strictly below the cap, and the Euler step overshoots it. -/
theorem applyPhysics_speed_exceeds_maxSpeed_counterexample :
    (-(Vehicle.maxSpeed / 2) ≤ (2999/100 : ℚ) ∧ (2999/100 : ℚ) ≤ Vehicle.maxSpeed) ∧
    Vehicle.maxSpeed <
      (Vehicle.applyPhysics trig0
        { Vehicle.mkVehicle ⟨0, 0, 0⟩ 0 with currentSpeed := 2999/100 }
        (1/10)).currentSpeed := by
  constructor
  · constructor <;> norm_num [Vehicle.maxSpeed]
  · norm_num [Vehicle.applyPhysics, Vehicle.mkVehicle, Vehicle.maxSpeed,
      Vehicle.enginePower, Vehicle.dragCoefficient, Vehicle.rollingResistance,
      Vehicle.mass, Vehicle.height, getGroundHeight, abs]

/-- C1 amended: starting from a speed within [-maxSpeed/2, maxSpeed],
the player-driven update (Vehicle.handleDriving) and the AI update
(Vehicle.applyAIPhysics) keep currentSpeed within those bounds for
every input and every nonnegative time step; the unforced
Vehicle.applyPhysics integration, however, can overshoot the bounds
(see the counterexample). -/
theorem handleDriving_applyAIPhysics_speed_bounds (T : Trig) (st : Vehicle.State)
    (dt : ℚ) (inp : Vehicle.DriveInput) (hdt : 0 ≤ dt)
    (hlo : -(Vehicle.maxSpeed / 2) ≤ st.currentSpeed)
    (hhi : st.currentSpeed ≤ Vehicle.maxSpeed) :
    (-(Vehicle.maxSpeed / 2) ≤ (Vehicle.handleDriving T st dt inp).currentSpeed ∧
      (Vehicle.handleDriving T st dt inp).currentSpeed ≤ Vehicle.maxSpeed) ∧
    (-(Vehicle.maxSpeed / 2) ≤ (Vehicle.applyAIPhysics T st dt).currentSpeed ∧
      (Vehicle.applyAIPhysics T st dt).currentSpeed ≤ Vehicle.maxSpeed) := by
  simp only [Vehicle.maxSpeed] at hlo hhi
  constructor
  · simp only [Vehicle.handleDriving, Vehicle.maxSpeed, Vehicle.acceleration,
      Vehicle.deceleration, Vehicle.brakingForce]
    split_ifs with h1 h2 h3 h4 h5
    · -- forward intent: capped by min at maxSpeed
      have hquot : st.currentSpeed / 30 ≤ 1 :=
        (div_le_one (by norm_num : (0:ℚ) < 30)).mpr hhi
      have hd : 0 ≤ (1 - st.currentSpeed / 30) * dt :=
        mul_nonneg (by linarith) hdt
      constructor
      · refine le_min ?_ (by norm_num)
        have : 25 * (1 - st.currentSpeed / 30) * dt
            = 25 * ((1 - st.currentSpeed / 30) * dt) := by ring
        rw [this]
        nlinarith [hd]
      · exact min_le_right _ _
    · -- braking while moving forward
      constructor
      · exact le_trans (by norm_num) (le_max_left 0 _)
      · refine max_le (by norm_num) ?_
        nlinarith [hdt]
    · -- reversing, capped at -maxSpeed/2
      constructor
      · exact le_trans (by norm_num) (le_max_left _ _)
      · refine max_le (by norm_num) ?_
        nlinarith [hdt]
    · -- no input, rolling forward
      constructor
      · exact le_trans (by norm_num) (le_max_left 0 _)
      · refine max_le (by norm_num) ?_
        nlinarith [hdt]
    · -- no input, rolling backward
      constructor
      · refine le_min (by norm_num) ?_
        nlinarith [hdt]
      · exact le_trans (min_le_left 0 _) (by norm_num)
    · -- stationary
      exact ⟨by linarith, by linarith⟩
  · simp only [Vehicle.applyAIPhysics, Vehicle.maxSpeed, Vehicle.acceleration,
      Vehicle.deceleration, Vehicle.steeringSpeed]
    constructor
    · exact le_trans (by norm_num) (le_max_left _ _)
    · exact max_le (by norm_num) (le_trans (min_le_right _ _) (by norm_num))

/-- Witness for C1 amended: a vehicle with speed 20 within bounds, a
1/60 s step with the forward key held. -/
theorem handleDriving_applyAIPhysics_speed_bounds_witness :
    ((0 : ℚ) ≤ 1/60 ∧
      -(Vehicle.maxSpeed / 2) ≤
        ({ Vehicle.mkVehicle ⟨0, 0, 0⟩ 0 with currentSpeed := 20 } : Vehicle.State).currentSpeed ∧
      ({ Vehicle.mkVehicle ⟨0, 0, 0⟩ 0 with currentSpeed := 20 } : Vehicle.State).currentSpeed
        ≤ Vehicle.maxSpeed) ∧
    ((-(Vehicle.maxSpeed / 2) ≤
        (Vehicle.handleDriving trig0 { Vehicle.mkVehicle ⟨0, 0, 0⟩ 0 with currentSpeed := 20 }
          (1/60) ⟨true, false, false, false⟩).currentSpeed ∧
      (Vehicle.handleDriving trig0 { Vehicle.mkVehicle ⟨0, 0, 0⟩ 0 with currentSpeed := 20 }
          (1/60) ⟨true, false, false, false⟩).currentSpeed ≤ Vehicle.maxSpeed) ∧
     (-(Vehicle.maxSpeed / 2) ≤
        (Vehicle.applyAIPhysics trig0 { Vehicle.mkVehicle ⟨0, 0, 0⟩ 0 with currentSpeed := 20 }
          (1/60)).currentSpeed ∧
      (Vehicle.applyAIPhysics trig0 { Vehicle.mkVehicle ⟨0, 0, 0⟩ 0 with currentSpeed := 20 }
          (1/60)).currentSpeed ≤ Vehicle.maxSpeed)) :=
  ⟨⟨by norm_num, by norm_num [Vehicle.maxSpeed], by norm_num [Vehicle.maxSpeed]⟩,
   handleDriving_applyAIPhysics_speed_bounds trig0
     { Vehicle.mkVehicle ⟨0, 0, 0⟩ 0 with currentSpeed := 20 } (1/60)
     ⟨true, false, false, false⟩ (by norm_num)
     (by norm_num [Vehicle.maxSpeed]) (by norm_num [Vehicle.maxSpeed])⟩

/-! ## C2 -/

/-- Counterexample to C2: a vehicle that is simultaneously occupied and
AI-controlled is reachable (VehReach): the traffic AI marks a vehicle
AI-controlled (Vehicle.setAIControlled), and Player.enterVehicle only
checks occupancy, so the player can then enter it. -/
theorem occupied_and_aiControlled_reachable_counterexample :
    ∃ st : Vehicle.State, VehReach st ∧ st.isOccupied = true ∧ st.isAIControlled = true := by
  refine ⟨playerEnterVehicle false
    (Vehicle.setAIControlled (Vehicle.mkVehicle ⟨10, 0, 10⟩ 0) true), ?_, ?_, ?_⟩
  · exact VehReach.playerEnter (VehReach.setAI true (VehReach.init ⟨10, 0, 10⟩ 0)) rfl
  · rfl
  · rfl

/-- C2 amended: occupied and aiControlled are independent flags -
Player.enterVehicle checks (and sets) only occupancy and
Vehicle.setAIControlled sets only the AI flag - so both can hold at
once; exclusive control is resolved at update time, where an occupied
vehicle with driver input takes the player branch of the dispatch
(Vehicle.updateMode), never the AI branch. -/
theorem occupied_vehicle_update_dispatch_is_player (st v : Vehicle.State) (b pin : Bool)
    (hocc : st.isOccupied = true) :
    Vehicle.updateMode st.isOccupied st.isAIControlled true = Vehicle.ControlMode.player ∧
    (Vehicle.setAIControlled st b).isOccupied = st.isOccupied ∧
    (playerEnterVehicle pin v).isAIControlled = v.isAIControlled := by
  refine ⟨?_, rfl, ?_⟩
  · simp [Vehicle.updateMode, hocc]
  · rw [playerEnterVehicle]
    split <;> rfl

/-- Witness for C2 amended at the reachable occupied-and-AI state. -/
theorem occupied_vehicle_update_dispatch_is_player_witness :
    (({ Vehicle.mkVehicle ⟨10, 0, 10⟩ 0 with isOccupied := true, isAIControlled := true }
        : Vehicle.State).isOccupied = true) ∧
    (Vehicle.updateMode
        ({ Vehicle.mkVehicle ⟨10, 0, 10⟩ 0 with isOccupied := true, isAIControlled := true }
          : Vehicle.State).isOccupied
        ({ Vehicle.mkVehicle ⟨10, 0, 10⟩ 0 with isOccupied := true, isAIControlled := true }
          : Vehicle.State).isAIControlled true = Vehicle.ControlMode.player ∧
      (Vehicle.setAIControlled
          { Vehicle.mkVehicle ⟨10, 0, 10⟩ 0 with isOccupied := true, isAIControlled := true }
          false).isOccupied
        = ({ Vehicle.mkVehicle ⟨10, 0, 10⟩ 0 with isOccupied := true, isAIControlled := true }
          : Vehicle.State).isOccupied ∧
      (playerEnterVehicle false
          { Vehicle.mkVehicle ⟨10, 0, 10⟩ 0 with isOccupied := true, isAIControlled := true }).isAIControlled
        = ({ Vehicle.mkVehicle ⟨10, 0, 10⟩ 0 with isOccupied := true, isAIControlled := true }
          : Vehicle.State).isAIControlled) :=
  ⟨rfl,
   occupied_vehicle_update_dispatch_is_player
     { Vehicle.mkVehicle ⟨10, 0, 10⟩ 0 with isOccupied := true, isAIControlled := true }
     { Vehicle.mkVehicle ⟨10, 0, 10⟩ 0 with isOccupied := true, isAIControlled := true }
     false false rfl⟩

/-! ## Helper lemmas for the collision-pass claims -/

/-- For a non-AI vehicle at rest, applyPhysics only performs the
cooldown bookkeeping. -/
theorem Vehicle.applyPhysics_rest (T : Trig) (st : Vehicle.State) (dt : ℚ)
    (hai : st.isAIControlled = false) (hs : st.currentSpeed = 0) :
    Vehicle.applyPhysics T st dt =
      if st.collisionCooldown > 0 then
        { st with collisionCooldown := st.collisionCooldown - dt,
                  hasCollidedRecently :=
                    if st.collisionCooldown - dt ≤ 0 then false
                    else st.hasCollidedRecently }
      else st := by
  unfold Vehicle.applyPhysics
  by_cases hcd : st.collisionCooldown > 0
  · rw [if_pos hcd]
    simp only []
    rw [hai, if_neg Bool.false_ne_true, hs]
    rw [if_neg (by norm_num : ¬ |(0 : ℚ)| > 1/100)]
  · rw [if_neg hcd]
    simp only []
    rw [hai, if_neg Bool.false_ne_true, hs]
    rw [if_neg (by norm_num : ¬ |(0 : ℚ)| > 1/100)]

/-- For a non-AI vehicle, applyPhysics changes the recent-collision
flag exactly as its leading cooldown step dictates. -/
theorem Vehicle.applyPhysics_flag (T : Trig) (st : Vehicle.State) (dt : ℚ)
    (hai : st.isAIControlled = false) :
    (Vehicle.applyPhysics T st dt).hasCollidedRecently =
      if st.collisionCooldown > 0 then
        (if st.collisionCooldown - dt ≤ 0 then false else st.hasCollidedRecently)
      else st.hasCollidedRecently := by
  unfold Vehicle.applyPhysics
  by_cases hcd : st.collisionCooldown > 0
  · rw [if_pos hcd]
    simp only []
    rw [hai, if_neg Bool.false_ne_true]
    split_ifs <;> rfl
  · rw [if_neg hcd]
    simp only []
    rw [hai, if_neg Bool.false_ne_true]
    split_ifs <;> rfl

set_option maxHeartbeats 1000000 in
/-- applyPhysics never touches the persisted collider box. -/
theorem Vehicle.applyPhysics_collider (T : Trig) (st : Vehicle.State) (dt : ℚ) :
    (Vehicle.applyPhysics T st dt).collider = st.collider := by
  simp only [Vehicle.applyPhysics, Vehicle.applyAIPhysics]
  split_ifs <;> rfl

/-! ## C5 -/

/-- C5 amended: the collision pass of Vehicle.update tests the persisted
collider only against the environment obstacle list - there is no
vehicle-against-vehicle collision resolution (vehicle proximity only
modulates the traffic AI's target speed).  Consequently two vehicles at
rest with overlapping bounding boxes are left completely unchanged by a
collision-resolution pass: positions and speeds are preserved (hence
finite), and the boxes still overlap exactly as before. -/
theorem rest_vehicles_collision_pass_keeps_overlap (T : Trig)
    (st st' : Vehicle.State) (dt : ℚ) (obstacles : List Vehicle.ObstacleIn)
    (hs : st.currentSpeed = 0) (hocc : st.isOccupied = false)
    (hai : st.isAIControlled = false)
    (hs' : st'.currentSpeed = 0) (hocc' : st'.isOccupied = false)
    (hai' : st'.isAIControlled = false)
    (hno : ∀ ob ∈ obstacles, ¬ Box3.intersectsBox st.collider ob.box)
    (hno' : ∀ ob ∈ obstacles, ¬ Box3.intersectsBox st'.collider ob.box)
    (hoverlap : Box3.intersectsBox (Vehicle.vehBox st.pos) (Vehicle.vehBox st'.pos)) :
    (Vehicle.update T st dt none obstacles).pos = st.pos ∧
    (Vehicle.update T st dt none obstacles).currentSpeed = 0 ∧
    (Vehicle.update T st' dt none obstacles).pos = st'.pos ∧
    (Vehicle.update T st' dt none obstacles).currentSpeed = 0 ∧
    Box3.intersectsBox (Vehicle.vehBox (Vehicle.update T st dt none obstacles).pos)
      (Vehicle.vehBox (Vehicle.update T st' dt none obstacles).pos) := by
  have hupd : ∀ u : Vehicle.State, u.currentSpeed = 0 → u.isOccupied = false →
      u.isAIControlled = false →
      (∀ ob ∈ obstacles, ¬ Box3.intersectsBox u.collider ob.box) →
      (Vehicle.update T u dt none obstacles).pos = u.pos ∧
      (Vehicle.update T u dt none obstacles).currentSpeed = 0 := by
    intro u hu1 hu2 hu3 hu4
    simp only [Vehicle.update, Vehicle.updateMode, hu2, hu3, Option.isSome_none,
      Bool.false_and, Bool.and_false, if_neg Bool.false_ne_true]
    rw [Vehicle.applyPhysics_rest T u dt hu3 hu1]
    have hcol : (if u.collisionCooldown > 0 then
        { u with collisionCooldown := u.collisionCooldown - dt,
                 hasCollidedRecently :=
                   if u.collisionCooldown - dt ≤ 0 then false
                   else u.hasCollidedRecently }
      else u).collider = u.collider := by
      split_ifs <;> rfl
    rw [Vehicle.handleCollisions_no_hit T _ obstacles
      (fun ob hob => by rw [hcol]; exact hu4 ob hob)]
    split_ifs <;> exact ⟨rfl, hu1⟩
  obtain ⟨h1, h2⟩ := hupd st hs hocc hai hno
  obtain ⟨h3, h4⟩ := hupd st' hs' hocc' hai' hno'
  refine ⟨h1, h2, h3, h4, ?_⟩
  rw [h1, h3]
  exact hoverlap

/-- Counterexample to C5: two vehicles constructed with overlapping
boxes and zero speed; one full collision-resolution pass
(Vehicle.update with no environment obstacle overlapping) leaves both
positions identical, so the box overlap is not reduced, contradicting
the claimed vehicle-against-vehicle resolution. -/
theorem overlapping_rest_vehicles_unresolved_counterexample :
    Box3.intersectsBox (Vehicle.mkVehicle ⟨0, 0, 0⟩ 0).collider
      (Vehicle.mkVehicle ⟨1, 0, 1⟩ 0).collider ∧
    (Vehicle.update trig0 (Vehicle.mkVehicle ⟨0, 0, 0⟩ 0) (1/60) none []).pos
      = (Vehicle.mkVehicle ⟨0, 0, 0⟩ 0).pos ∧
    (Vehicle.update trig0 (Vehicle.mkVehicle ⟨1, 0, 1⟩ 0) (1/60) none []).pos
      = (Vehicle.mkVehicle ⟨1, 0, 1⟩ 0).pos ∧
    (Vehicle.update trig0 (Vehicle.mkVehicle ⟨0, 0, 0⟩ 0) (1/60) none []).currentSpeed = 0 ∧
    (Vehicle.update trig0 (Vehicle.mkVehicle ⟨1, 0, 1⟩ 0) (1/60) none []).currentSpeed = 0 ∧
    Box3.intersectsBox
      (Vehicle.vehBox (Vehicle.update trig0 (Vehicle.mkVehicle ⟨0, 0, 0⟩ 0) (1/60) none []).pos)
      (Vehicle.vehBox (Vehicle.update trig0 (Vehicle.mkVehicle ⟨1, 0, 1⟩ 0) (1/60) none []).pos) := by
  have heval : ∀ a b : ℚ, Vehicle.update trig0 (Vehicle.mkVehicle ⟨a, 0, b⟩ 0) (1/60) none []
      = Vehicle.mkVehicle ⟨a, 0, b⟩ 0 := by
    intro a b
    simp only [Vehicle.update, Vehicle.updateMode, Option.isSome_none, Bool.and_false,
      if_neg Bool.false_ne_true]
    rw [Vehicle.applyPhysics_rest trig0 _ (1/60) rfl rfl]
    norm_num [Vehicle.mkVehicle, Vehicle.handleCollisions, Vehicle.handleCollisionsGo,
      Vehicle.vehBox, getGroundHeight]
  rw [heval 0 0, heval 1 1]
  refine ⟨?_, rfl, rfl, rfl, rfl, ?_⟩ <;>
    norm_num [Box3.intersectsBox, Vehicle.mkVehicle, Vehicle.vehBox, Vehicle.width,
      Vehicle.height, Vehicle.length, getGroundHeight]

/-- Witness for C5 amended at two overlapping freshly-constructed
vehicles with no environment obstacles. -/
theorem rest_vehicles_collision_pass_keeps_overlap_witness :
    ((Vehicle.mkVehicle ⟨0, 0, 0⟩ 0).currentSpeed = 0 ∧
      Box3.intersectsBox (Vehicle.vehBox (Vehicle.mkVehicle ⟨0, 0, 0⟩ 0).pos)
        (Vehicle.vehBox (Vehicle.mkVehicle ⟨1, 0, 1⟩ 0).pos)) ∧
    ((Vehicle.update trig0 (Vehicle.mkVehicle ⟨0, 0, 0⟩ 0) (1/60) none []).pos
        = (Vehicle.mkVehicle ⟨0, 0, 0⟩ 0).pos ∧
      (Vehicle.update trig0 (Vehicle.mkVehicle ⟨0, 0, 0⟩ 0) (1/60) none []).currentSpeed = 0 ∧
      (Vehicle.update trig0 (Vehicle.mkVehicle ⟨1, 0, 1⟩ 0) (1/60) none []).pos
        = (Vehicle.mkVehicle ⟨1, 0, 1⟩ 0).pos ∧
      (Vehicle.update trig0 (Vehicle.mkVehicle ⟨1, 0, 1⟩ 0) (1/60) none []).currentSpeed = 0 ∧
      Box3.intersectsBox
        (Vehicle.vehBox (Vehicle.update trig0 (Vehicle.mkVehicle ⟨0, 0, 0⟩ 0) (1/60) none []).pos)
        (Vehicle.vehBox (Vehicle.update trig0 (Vehicle.mkVehicle ⟨1, 0, 1⟩ 0) (1/60) none []).pos)) :=
  ⟨⟨rfl, by norm_num [Box3.intersectsBox, Vehicle.mkVehicle, Vehicle.vehBox, Vehicle.width,
      Vehicle.height, Vehicle.length, getGroundHeight]⟩,
   rest_vehicles_collision_pass_keeps_overlap trig0
     (Vehicle.mkVehicle ⟨0, 0, 0⟩ 0) (Vehicle.mkVehicle ⟨1, 0, 1⟩ 0) (1/60) []
     rfl rfl rfl rfl rfl rfl
     (fun ob hob => absurd hob (List.not_mem_nil ob))
     (fun ob hob => absurd hob (List.not_mem_nil ob))
     (by norm_num [Box3.intersectsBox, Vehicle.mkVehicle, Vehicle.vehBox, Vehicle.width,
        Vehicle.height, Vehicle.length, getGroundHeight])⟩

/-! ## C6 -/

/-- C6 amended: the recent-collision flag is cleared only by the
unforced-physics path of Vehicle.update (vehicle neither
player-controlled nor AI-controlled), and there only on a frame whose
entry cooldown lies in (0, dt]; an occupied vehicle's update never
clears the flag, regardless of how much time elapses. -/
theorem collision_flag_clearing (T : Trig) (dt : ℚ) (obstacles : List Vehicle.ObstacleIn) :
    (∀ st : Vehicle.State, st.isOccupied = false → st.isAIControlled = false →
      0 < st.collisionCooldown → st.collisionCooldown ≤ dt →
      (∀ ob ∈ obstacles, ¬ Box3.intersectsBox st.collider ob.box) →
      (Vehicle.update T st dt none obstacles).hasCollidedRecently = false) ∧
    (∀ st : Vehicle.State, ∀ inp : Vehicle.DriveInput, st.isOccupied = true →
      (∀ ob ∈ obstacles, ¬ Box3.intersectsBox st.collider ob.box) →
      (Vehicle.update T st dt (some inp) obstacles).hasCollidedRecently
        = st.hasCollidedRecently) := by
  constructor
  · intro st hocc hai hcd hle hno
    simp only [Vehicle.update, Vehicle.updateMode, hocc, hai, Option.isSome_none,
      Bool.false_and, if_neg Bool.false_ne_true]
    rw [Vehicle.handleCollisions_no_hit T _ obstacles
      (fun ob hob => by rw [Vehicle.applyPhysics_collider]; exact hno ob hob)]
    have hflag : (Vehicle.applyPhysics T st dt).hasCollidedRecently = false := by
      rw [Vehicle.applyPhysics_flag T st dt hai, if_pos hcd, if_pos (by linarith)]
    split_ifs <;> simpa using hflag
  · intro st inp hocc hno
    simp only [Vehicle.update, Vehicle.updateMode, hocc, Option.isSome_some,
      Bool.and_self, if_true, Option.getD_some]
    rw [Vehicle.handleCollisions_no_hit T (Vehicle.handleDriving T st dt inp) obstacles
      (fun ob hob => hno ob hob)]
    split_ifs <;> rfl

/-- Counterexample to C6: an occupied (player-driven) vehicle with a
fresh collision flag and 1-second cooldown, updated 11 times at
dt = 0.1 s (1.1 s > 1 s) with no further collision: hasCollidedRecently
is still true, because only the unforced applyPhysics path ever resets
the flag. -/
theorem occupied_collision_flag_never_cleared_counterexample :
    ((fun s : Vehicle.State =>
        Vehicle.update trig0 s (1/10) (some ⟨false, false, false, false⟩) [])^[11]
      { Vehicle.mkVehicle ⟨0, 0, 0⟩ 0 with
        isOccupied := true, hasCollidedRecently := true, collisionCooldown := 1 }).hasCollidedRecently = true ∧
    (11 : ℚ) * (1/10) > 1 := by
  constructor
  · have hstep : ∀ s : Vehicle.State, s.isOccupied = true →
        (Vehicle.update trig0 s (1/10) (some ⟨false, false, false, false⟩) []).isOccupied = true ∧
        (Vehicle.update trig0 s (1/10) (some ⟨false, false, false, false⟩) []).hasCollidedRecently
          = s.hasCollidedRecently := by
      intro s hs
      simp only [Vehicle.update, Vehicle.updateMode, hs, Option.isSome_some, Bool.and_self,
        if_true, Option.getD_some, Vehicle.handleCollisions, Vehicle.handleCollisionsGo,
        Bool.false_eq_true, if_false]
      split_ifs <;> exact ⟨hs, rfl⟩
    have main : ∀ n : ℕ,
        ((fun s : Vehicle.State =>
            Vehicle.update trig0 s (1/10) (some ⟨false, false, false, false⟩) [])^[n]
          { Vehicle.mkVehicle ⟨0, 0, 0⟩ 0 with
            isOccupied := true, hasCollidedRecently := true, collisionCooldown := 1 }).isOccupied = true ∧
        ((fun s : Vehicle.State =>
            Vehicle.update trig0 s (1/10) (some ⟨false, false, false, false⟩) [])^[n]
          { Vehicle.mkVehicle ⟨0, 0, 0⟩ 0 with
            isOccupied := true, hasCollidedRecently := true, collisionCooldown := 1 }).hasCollidedRecently = true := by
      intro n
      induction n with
      | zero => exact ⟨rfl, rfl⟩
      | succ n ih =>
        rw [Function.iterate_succ_apply']
        exact ⟨(hstep _ ih.1).1, (hstep _ ih.1).2.trans ih.2⟩
    exact (main 11).2
  · norm_num

/-- Witness for C6 amended: an unforced vehicle whose cooldown 0.05
lies in (0, dt] with dt = 0.1 has the flag cleared, and an occupied
vehicle's update leaves the flag untouched. -/
theorem collision_flag_clearing_witness :
    (({ Vehicle.mkVehicle ⟨0, 0, 0⟩ 0 with
          hasCollidedRecently := true, collisionCooldown := 1/20 } : Vehicle.State).isOccupied = false ∧
      (0 : ℚ) < 1/20 ∧ (1/20 : ℚ) ≤ 1/10) ∧
    (Vehicle.update trig0
        { Vehicle.mkVehicle ⟨0, 0, 0⟩ 0 with
          hasCollidedRecently := true, collisionCooldown := 1/20 } (1/10) none []).hasCollidedRecently = false ∧
    (Vehicle.update trig0
        { Vehicle.mkVehicle ⟨0, 0, 0⟩ 0 with
          isOccupied := true, hasCollidedRecently := true, collisionCooldown := 1 }
        (1/10) (some ⟨false, false, false, false⟩) []).hasCollidedRecently
      = ({ Vehicle.mkVehicle ⟨0, 0, 0⟩ 0 with
          isOccupied := true, hasCollidedRecently := true, collisionCooldown := 1 } : Vehicle.State).hasCollidedRecently :=
  ⟨⟨rfl, by norm_num, by norm_num⟩,
   (collision_flag_clearing trig0 (1/10) []).1
     { Vehicle.mkVehicle ⟨0, 0, 0⟩ 0 with
       hasCollidedRecently := true, collisionCooldown := 1/20 }
     rfl rfl (by norm_num) (by norm_num)
     (fun ob hob => absurd hob (List.not_mem_nil ob)),
   (collision_flag_clearing trig0 (1/10) []).2
     { Vehicle.mkVehicle ⟨0, 0, 0⟩ 0 with
       isOccupied := true, hasCollidedRecently := true, collisionCooldown := 1 }
     ⟨false, false, false, false⟩ rfl
     (fun ob hob => absurd hob (List.not_mem_nil ob))⟩

/-! ## C7 -/

/-- C7: when a vehicle's box overlaps an obstacle, the resolution step
of the collision pass multiplies currentSpeed by
(1 - (0.5 + 0.5 * |cos(angle between the forward direction and the
impact direction)|)) and pushes the horizontal position along the
normalized obstacle-to-entity direction u by 0.2 + |currentSpeed| * 0.05
(basePush + impactSpeed * pushScale), leaving the height unchanged.
`u` is the normalized direction (witnessed unit by the first conjunct,
using n = ‖pos - center‖), and the forward vector is unit by the
second. -/
theorem handleCollisions_overlap_response_formula (T : Trig) (st : Vehicle.State)
    (ob : Box3) (n : ℚ) (u : Vec3)
    (hover : Box3.intersectsBox st.collider ob)
    (hn : 0 < n)
    (hsq : n * n = Vec3.dot (Vec3.sub st.pos (Box3.getCenter ob))
      (Vec3.sub st.pos (Box3.getCenter ob)))
    (hu : u = Vec3.smul (1 / n) (Vec3.sub st.pos (Box3.getCenter ob)))
    (htrig : T.sin st.yaw ^ 2 + T.cos st.yaw ^ 2 = 1) :
    Vec3.dot u u = 1 ∧
    Vec3.dot (vecForward T st.yaw) (vecForward T st.yaw) = 1 ∧
    (Vehicle.handleCollisions T st [⟨ob, n⟩]).currentSpeed
      = st.currentSpeed * (1 - (1/2 + |Vec3.dot u (vecForward T st.yaw)| * (1/2))) ∧
    (Vehicle.handleCollisions T st [⟨ob, n⟩]).pos.x
      = st.pos.x + u.x * (1/5 + |st.currentSpeed| * (1/20)) ∧
    (Vehicle.handleCollisions T st [⟨ob, n⟩]).pos.y = st.pos.y ∧
    (Vehicle.handleCollisions T st [⟨ob, n⟩]).pos.z
      = st.pos.z + u.z * (1/5 + |st.currentSpeed| * (1/20)) := by
  have hn' : n ≠ 0 := ne_of_gt hn
  have hrw : Vehicle.handleCollisions T st [⟨ob, n⟩]
      = { Vehicle.collisionResponse T st ob n with
          hasCollidedRecently := true, collisionCooldown := 1 } := by
    simp only [Vehicle.handleCollisions, Vehicle.handleCollisionsGo, if_pos hover]
    rw [if_pos trivial]
  have hdot : Vec3.dot
      ⟨(Vec3.smul (1 / n) (Vec3.sub st.pos (Box3.getCenter ob))).x, 0,
       (Vec3.smul (1 / n) (Vec3.sub st.pos (Box3.getCenter ob))).z⟩
      (vecForward T st.yaw)
      = Vec3.dot (Vec3.smul (1 / n) (Vec3.sub st.pos (Box3.getCenter ob)))
          (vecForward T st.yaw) := by
    simp only [Vec3.dot, Vec3.smul, vecForward]
    ring
  subst hu
  refine ⟨?_, ?_, ?_, ?_, ?_, ?_⟩
  · simp only [Vec3.dot, Vec3.smul] at hsq ⊢
    field_simp
    linarith [hsq]
  · simp only [Vec3.dot, vecForward]
    nlinarith [htrig]
  · rw [hrw]
    show (Vehicle.collisionResponse T st ob n).currentSpeed = _
    simp only [Vehicle.collisionResponse]
    rw [hdot]
  · rw [hrw]
    rfl
  · rw [hrw]
    rfl
  · rw [hrw]
    rfl

/-- Witness for C7: a vehicle at speed 10 struck by an obstacle one
unit to its left (impact direction (1,0,0), forward (0,0,-1), so the
cosine is 0): the speed halves and the push is 0.2 + 10 * 0.05 = 0.7
along x. -/
theorem handleCollisions_overlap_response_formula_witness :
    (Box3.intersectsBox
        ({ Vehicle.mkVehicle ⟨0, 0, 0⟩ 0 with currentSpeed := 10 } : Vehicle.State).collider
        ⟨⟨-3/2, 0, -1/2⟩, ⟨-1/2, 3/2, 1/2⟩⟩ ∧
      (0 : ℚ) < 1 ∧
      (1 : ℚ) * 1 = Vec3.dot
        (Vec3.sub ({ Vehicle.mkVehicle ⟨0, 0, 0⟩ 0 with currentSpeed := 10 } : Vehicle.State).pos
          (Box3.getCenter ⟨⟨-3/2, 0, -1/2⟩, ⟨-1/2, 3/2, 1/2⟩⟩))
        (Vec3.sub ({ Vehicle.mkVehicle ⟨0, 0, 0⟩ 0 with currentSpeed := 10 } : Vehicle.State).pos
          (Box3.getCenter ⟨⟨-3/2, 0, -1/2⟩, ⟨-1/2, 3/2, 1/2⟩⟩)) ∧
      (⟨1, 0, 0⟩ : Vec3) = Vec3.smul (1 / 1)
        (Vec3.sub ({ Vehicle.mkVehicle ⟨0, 0, 0⟩ 0 with currentSpeed := 10 } : Vehicle.State).pos
          (Box3.getCenter ⟨⟨-3/2, 0, -1/2⟩, ⟨-1/2, 3/2, 1/2⟩⟩)) ∧
      trig0.sin ({ Vehicle.mkVehicle ⟨0, 0, 0⟩ 0 with currentSpeed := 10 } : Vehicle.State).yaw ^ 2
        + trig0.cos ({ Vehicle.mkVehicle ⟨0, 0, 0⟩ 0 with currentSpeed := 10 } : Vehicle.State).yaw ^ 2 = 1) ∧
    (Vehicle.handleCollisions trig0 { Vehicle.mkVehicle ⟨0, 0, 0⟩ 0 with currentSpeed := 10 }
        [⟨⟨⟨-3/2, 0, -1/2⟩, ⟨-1/2, 3/2, 1/2⟩⟩, 1⟩]).currentSpeed
      = ({ Vehicle.mkVehicle ⟨0, 0, 0⟩ 0 with currentSpeed := 10 } : Vehicle.State).currentSpeed
        * (1 - (1/2 + |Vec3.dot ⟨1, 0, 0⟩
            (vecForward trig0 ({ Vehicle.mkVehicle ⟨0, 0, 0⟩ 0 with currentSpeed := 10 } : Vehicle.State).yaw)| * (1/2))) ∧
    (Vehicle.handleCollisions trig0 { Vehicle.mkVehicle ⟨0, 0, 0⟩ 0 with currentSpeed := 10 }
        [⟨⟨⟨-3/2, 0, -1/2⟩, ⟨-1/2, 3/2, 1/2⟩⟩, 1⟩]).pos.x
      = ({ Vehicle.mkVehicle ⟨0, 0, 0⟩ 0 with currentSpeed := 10 } : Vehicle.State).pos.x
        + (⟨1, 0, 0⟩ : Vec3).x * (1/5 + |({ Vehicle.mkVehicle ⟨0, 0, 0⟩ 0 with currentSpeed := 10 } : Vehicle.State).currentSpeed| * (1/20)) :=
  ⟨⟨by norm_num [Box3.intersectsBox, Vehicle.mkVehicle, Vehicle.vehBox, Vehicle.width,
      Vehicle.height, Vehicle.length, getGroundHeight],
    by norm_num,
    by norm_num [Vec3.dot, Vec3.sub, Box3.getCenter, Vehicle.mkVehicle, Vehicle.height, getGroundHeight],
    by norm_num [Vec3.smul, Vec3.sub, Box3.getCenter, Vehicle.mkVehicle, Vehicle.height, getGroundHeight],
    by norm_num [trig0]⟩,
   (handleCollisions_overlap_response_formula trig0
      { Vehicle.mkVehicle ⟨0, 0, 0⟩ 0 with currentSpeed := 10 }
      ⟨⟨-3/2, 0, -1/2⟩, ⟨-1/2, 3/2, 1/2⟩⟩ 1 ⟨1, 0, 0⟩
      (by norm_num [Box3.intersectsBox, Vehicle.mkVehicle, Vehicle.vehBox, Vehicle.width,
        Vehicle.height, Vehicle.length, getGroundHeight])
      (by norm_num)
      (by norm_num [Vec3.dot, Vec3.sub, Box3.getCenter, Vehicle.mkVehicle, Vehicle.height, getGroundHeight])
      (by norm_num [Vec3.smul, Vec3.sub, Box3.getCenter, Vehicle.mkVehicle, Vehicle.height, getGroundHeight])
      (by norm_num [trig0])).2.2.1,
   (handleCollisions_overlap_response_formula trig0
      { Vehicle.mkVehicle ⟨0, 0, 0⟩ 0 with currentSpeed := 10 }
      ⟨⟨-3/2, 0, -1/2⟩, ⟨-1/2, 3/2, 1/2⟩⟩ 1 ⟨1, 0, 0⟩
      (by norm_num [Box3.intersectsBox, Vehicle.mkVehicle, Vehicle.vehBox, Vehicle.width,
        Vehicle.height, Vehicle.length, getGroundHeight])
      (by norm_num)
      (by norm_num [Vec3.dot, Vec3.sub, Box3.getCenter, Vehicle.mkVehicle, Vehicle.height, getGroundHeight])
      (by norm_num [Vec3.smul, Vec3.sub, Box3.getCenter, Vehicle.mkVehicle, Vehicle.height, getGroundHeight])
      (by norm_num [trig0])).2.2.2.1⟩

/-! ## C8 -/

/-- The vehicle loop of the forward scan returns the first list entry
satisfying the radius-and-cone test, capped at 20. -/
theorem VehicleManager.scanVehicles_eq (self dir : Vec3)
    (vehs : List VehicleManager.ScanVehicle) :
    VehicleManager.scanVehicles self dir vehs
      = (vehs.find? (fun v => decide (v.nrm < 20 ∧
          Vec3.dot dir (Vec3.smul (1 / v.nrm) (Vec3.sub v.pos self)) > 7/10))).map
          (fun v => min v.nrm 20) := by
  induction vehs with
  | nil => rfl
  | cons v rest ih =>
    by_cases h : v.nrm < 20 ∧
        Vec3.dot dir (Vec3.smul (1 / v.nrm) (Vec3.sub v.pos self)) > 7/10
    · rw [VehicleManager.scanVehicles, if_pos h,
        List.find?_cons_of_pos _ (by simpa using h)]
      rfl
    · rw [VehicleManager.scanVehicles, if_neg h, ih,
        List.find?_cons_of_neg _ (by simpa using h)]

/-- The obstacle loop of the forward scan folds the minimum over the
cone-filtered obstacle distances. -/
theorem VehicleManager.scanObstacles_eq (self dir : Vec3)
    (obs : List VehicleManager.ScanObstacle) :
    ∀ m : ℚ, VehicleManager.scanObstacles self dir obs m
      = ((obs.filter (fun o => decide (Vec3.dot dir
          (Vec3.smul (1 / o.nrm) (Vec3.sub o.box.getCenter self)) > 7/10))).map
          VehicleManager.ScanObstacle.nrm).foldl min m := by
  induction obs with
  | nil => intro m; rfl
  | cons o rest ih =>
    intro m
    by_cases h : Vec3.dot dir
        (Vec3.smul (1 / o.nrm) (Vec3.sub o.box.getCenter self)) > 7/10
    · rw [VehicleManager.scanObstacles, if_pos h, ih,
        List.filter_cons_of_pos (by simpa using h)]
      rfl
    · rw [VehicleManager.scanObstacles, if_neg h, ih,
        List.filter_cons_of_neg (by simpa using h)]

/-- C8 amended: the forward scan (VehicleManager.checkForObstacles)
returns the distance of the FIRST other vehicle in list order that is
within 20 units and within the ~45-degree cone (dot > 0.7), capped at
20; only when no vehicle qualifies does it return the minimum over the
cone-filtered obstacle distances with default 20.  Whenever the
returned obstacleDistance is below 10, the AI target speed is the base
speed scaled linearly by obstacleDistance/10, reaching zero at
distance 0. -/
theorem forward_scan_first_match_and_linear_falloff (self dir : Vec3)
    (vehs : List VehicleManager.ScanVehicle) (obs : List VehicleManager.ScanObstacle)
    (d : ℚ) (hd : d < 10) :
    VehicleManager.checkForObstacles self dir vehs obs
      = (match vehs.find? (fun v => decide (v.nrm < 20 ∧
            Vec3.dot dir (Vec3.smul (1 / v.nrm) (Vec3.sub v.pos self)) > 7/10)) with
         | some v => min v.nrm 20
         | none => ((obs.filter (fun o => decide (Vec3.dot dir
              (Vec3.smul (1 / o.nrm) (Vec3.sub o.box.getCenter self)) > 7/10))).map
              VehicleManager.ScanObstacle.nrm).foldl min 20) ∧
    VehicleManager.aiAdjustedSpeed d = VehicleManager.baseSpeed * (d / 10) ∧
    VehicleManager.aiAdjustedSpeed 0 = 0 := by
  refine ⟨?_, ?_, ?_⟩
  · rw [VehicleManager.checkForObstacles, VehicleManager.scanVehicles_eq,
      VehicleManager.scanObstacles_eq]
    cases vehs.find? (fun v => decide (v.nrm < 20 ∧
      Vec3.dot dir (Vec3.smul (1 / v.nrm) (Vec3.sub v.pos self)) > 7/10)) <;> rfl
  · rw [VehicleManager.aiAdjustedSpeed, if_pos hd]
  · rw [VehicleManager.aiAdjustedSpeed]
    norm_num [VehicleManager.baseSpeed]

/-- Witness for C8 amended at the counterexample's configuration and
at distance 4. -/
theorem forward_scan_first_match_witness :
    ((4 : ℚ) < 10) ∧
    VehicleManager.aiAdjustedSpeed 4 = VehicleManager.baseSpeed * ((4 : ℚ) / 10) ∧
    VehicleManager.aiAdjustedSpeed 0 = 0 :=
  ⟨by norm_num,
   (forward_scan_first_match_and_linear_falloff ⟨0, 0, 0⟩ ⟨0, 0, -1⟩ [] [] 4
      (by norm_num)).2.1,
   (forward_scan_first_match_and_linear_falloff ⟨0, 0, 0⟩ ⟨0, 0, -1⟩ [] [] 4
      (by norm_num)).2.2⟩

/-- Counterexample to C8: a qualifying vehicle at distance 15 makes the
scan return 15 immediately, even though an obstacle dead ahead at
distance 3 exists; the spec's minimum over all candidates is 3.  The
derived target speed is the full base speed instead of the claimed
linear falloff value 1.5. -/
theorem forward_scan_not_minimum_counterexample :
    VehicleManager.checkForObstacles ⟨0, 0, 0⟩ ⟨0, 0, -1⟩
        [⟨⟨0, 0, -15⟩, 15⟩] [⟨⟨⟨-1, -1, -4⟩, ⟨1, 1, -2⟩⟩, 3⟩] = 15 ∧
    VehicleManager.specForwardScanMin ⟨0, 0, 0⟩ ⟨0, 0, -1⟩
        [⟨⟨0, 0, -15⟩, 15⟩] [⟨⟨⟨-1, -1, -4⟩, ⟨1, 1, -2⟩⟩, 3⟩] = 3 ∧
    (15 : ℚ) ≠ 3 ∧
    VehicleManager.aiAdjustedSpeed 15 = VehicleManager.baseSpeed ∧
    VehicleManager.aiAdjustedSpeed 3 = 3/2 := by
  norm_num [VehicleManager.checkForObstacles, VehicleManager.scanVehicles,
    VehicleManager.scanObstacles, VehicleManager.specForwardScanMin,
    VehicleManager.aiAdjustedSpeed, VehicleManager.baseSpeed,
    Vec3.dot, Vec3.smul, Vec3.sub, Box3.getCenter, List.filter]
